import Mathlib

/-!
Verification development for the LavenderSentinel RAG chat service.

This file gives a shallow embedding, in Lean, of the chat orchestration core of
the repository:

* `backend/app/services/chat_service.py` — `ChatService` (`_get_rag_context`,
  `_build_messages`, `chat`, `chat_stream`, `_generate_followup_suggestions`);
* `backend/app/db/repositories.py` — `ChatSessionRepository`
  (`create`, `get_by_id`, `add_message`);
* `backend/app/models/chat.py` — the message / response / streaming-chunk records.

External I/O (the Qdrant vector search reached through
`vector_search_handler.get_context_for_rag`, and the litellm `acompletion`
call, both batch and streaming) is represented by explicit function parameters
whose results are either a value or a raised exception (`Except String`),
mirroring the way the Python code consumes those calls.  The database session
is modeled as an association list from session id to session record, with the
repository operations acting on it by explicit state passing.
-/

namespace LavenderSentinel

/-- Role of a chat message, from `MessageRole` in `backend/app/models/chat.py`
(a string enum with values "user", "assistant", "system"). -/
inductive MessageRole where
  | user
  | assistant
  | system
deriving DecidableEq

/-- The `.value` of the string enum `MessageRole`. -/
def MessageRole.value : MessageRole → String
  | .user => "user"
  | .assistant => "assistant"
  | .system => "system"

/-- Chat message, from `ChatMessage` in `backend/app/models/chat.py`.  The
auto-generated `id` (uuid4) and `timestamp` fields are omitted: no modeled
operation reads them.  The remaining fields are exactly those the chat
service constructs and the repository stores. -/
structure ChatMessage where
  role : MessageRole
  content : String
  paper_ids : List String
  citations : List String
deriving DecidableEq

/-- Chat session record, from `ChatSessionORM` as used by
`ChatSessionRepository` in `backend/app/db/repositories.py`: `create` stores
`paper_context or []` and `messages=[]`; `add_message` appends to `messages`.
The `user_id`, `title` and timestamp columns are omitted: no modeled
operation depends on them. -/
structure Session where
  paper_context : List String
  messages : List ChatMessage
deriving DecidableEq

/-- The database table of chat sessions, keyed by session id.  An association
list from id to session record; ids of distinct rows are distinct in the real
database (uuid primary keys), which theorems assume through explicit
freshness hypotheses where needed. -/
abbrev Store : Type := List (String × Session)

/-- `ChatSessionRepository.get_by_id` (`backend/app/db/repositories.py`,
lines 189 to 194): select the session whose id equals `session_id`, or
`None`. -/
def get_by_id (store : Store) (session_id : String) : Option Session :=
  (List.find? (fun p => p.1 == session_id) store).map (fun p => p.2)

/-- `ChatSessionRepository.create` (`backend/app/db/repositories.py`, lines
174 to 187): insert a new row with the given fresh id, `paper_context or []`
already resolved by the caller, and an empty message list. -/
def create_session (store : Store) (fresh_id : String) (paper_context : List String) : Store :=
  store ++ [(fresh_id, { paper_context := paper_context, messages := [] })]

/-- `ChatSessionRepository.add_message` (`backend/app/db/repositories.py`,
lines 196 to 212): look the session up by id; if absent return `None` and
change nothing; otherwise append the message to the end of the stored
message sequence.  Returns the updated table together with what the Python
method returns (the updated session, or `None`). -/
def add_message (store : Store) (session_id : String) (message : ChatMessage) :
    Store × Option Session :=
  match get_by_id store session_id with
  | none => (store, none)
  | some s =>
      let s2 : Session := { s with messages := s.messages ++ [message] }
      (List.map (fun p => if p.1 == session_id then (session_id, s2) else p) store, some s2)

/-- Retrieved chunk, the element type of the list returned by
`VectorSearchHandler.get_context_for_rag` (`backend/app/indexing/handlers.py`,
lines 221 to 229): a dict with keys `paper_id`, `text`, `title`, `score`,
always all present.  The similarity score is modeled as an integer since no
modeled operation computes with it. -/
structure Chunk where
  paper_id : String
  text : String
  title : String
  score : Int
deriving DecidableEq

/-- Source record, the element type of the `sources` list built by
`ChatService._get_rag_context` (`backend/app/services/chat_service.py`,
lines 110 to 115): a dict with keys `paper_id`, `title`, `excerpt`,
`score`. -/
structure SourceRecord where
  paper_id : String
  title : String
  excerpt : String
  score : Int
deriving DecidableEq

/-- Python string slicing `s[:n]`: the first `n` characters of `s` (all of
`s` when it is shorter).  Written over the character list so that it is a
structural computation. -/
def pySlice (s : String) (n : Nat) : String :=
  String.mk (s.data.take n)

/-- The source dict built for one chunk by `_get_rag_context`
(`backend/app/services/chat_service.py`, lines 110 to 115): the excerpt is
`chunk["text"][:200] + "..."`, with the ellipsis appended unconditionally. -/
def mkSource (c : Chunk) : SourceRecord :=
  { paper_id := c.paper_id
    title := c.title
    excerpt := pySlice c.text 200 ++ "..."
    score := c.score }

/-- `ChatService.RAG_CONTEXT_TEMPLATE` (`backend/app/services/chat_service.py`,
lines 46 to 51) instantiated with a title and a chunk text. -/
def ragContextTemplate (title content : String) : String :=
  "\nPaper: " ++ title ++ "\n---\n" ++ content ++ "\n---\n"

/-- The loop of `_get_rag_context` (`backend/app/services/chat_service.py`,
lines 96 to 115): walk the chunks in order, carrying the set of already seen
paper ids; a chunk whose paper id was already seen is skipped; otherwise one
context block and one source dict are appended and the paper id is marked
seen. -/
def assemble : List Chunk → List String → List String × List SourceRecord
  | [], _ => ([], [])
  | c :: rest, seen =>
      if c.paper_id ∈ seen then
        assemble rest seen
      else
        let r := assemble rest (c.paper_id :: seen)
        (ragContextTemplate c.title c.text :: r.1, mkSource c :: r.2)

/-- `ChatService._get_rag_context` (`backend/app/services/chat_service.py`,
lines 89 to 118), applied to the chunk list obtained from the vector search:
empty input short-circuits to an empty context string and empty source list;
otherwise the assembly loop runs and the context blocks are joined with a
newline.  The vector search call itself (lines 83 to 87) is external I/O and
is represented by the `retrieve` parameter of `chat` and `chat_stream`. -/
def _get_rag_context (chunks : List Chunk) : String × List SourceRecord :=
  if chunks.isEmpty then ("", [])
  else
    let r := assemble chunks []
    (String.intercalate "\n" r.1, r.2)

/-- Message dict passed to the language model, as built by `_build_messages`
(`backend/app/services/chat_service.py`): a `role` string and a `content`
string. -/
structure LlmMessage where
  role : String
  content : String
deriving DecidableEq

/-- The part of `ChatService.SYSTEM_PROMPT`
(`backend/app/services/chat_service.py`, lines 25 to 44) before the
`context` format field. -/
def SYSTEM_PROMPT_PRE : String :=
  "You are LavenderSentinel, an AI research assistant specialized in helping users understand and explore academic papers.\n\nYour capabilities:\n- Explain complex research concepts in clear, accessible language\n- Compare and contrast different papers and methodologies\n- Identify key contributions, findings, and limitations of papers\n- Suggest related papers and research directions\n- Answer questions about specific papers in your context\n\nGuidelines:\n- Always cite specific papers when referencing their content\n- Be precise and accurate - don\x27t make up information\n- Acknowledge when you don\x27t have enough information\n- Use academic language but remain accessible\n- Format responses with clear structure when appropriate\n\nYou have access to the following paper context:\n"

/-- The part of `ChatService.SYSTEM_PROMPT` after the `context` format
field. -/
def SYSTEM_PROMPT_POST : String :=
  "\n\nRespond helpfully and accurately to the user\x27s questions."

/-- `SYSTEM_PROMPT.format(context=ctx)`. -/
def systemPromptFmt (ctx : String) : String :=
  SYSTEM_PROMPT_PRE ++ ctx ++ SYSTEM_PROMPT_POST

/-- Python slice `l[-n:]`: the last `n` elements (the whole list when it is
shorter). -/
def lastN (n : Nat) (l : List ChatMessage) : List ChatMessage :=
  l.drop (l.length - n)

/-- `ChatService._build_messages` (`backend/app/services/chat_service.py`,
lines 120 to 147): one system message whose content is the system prompt
formatted with the context (or, when the context string is empty and hence
falsy, with the placeholder), followed by the last 10 session messages with
their roles, followed by the new user message. -/
def _build_messages (session : Session) (new_message : String) (context : String) :
    List LlmMessage :=
  { role := "system"
    content := systemPromptFmt (if context == "" then "No specific papers in context." else context) }
  :: ((lastN 10 session.messages).map (fun m => { role := m.role.value, content := m.content })
      ++ [{ role := "user", content := new_message }])

/-- Decides whether the character list `p` is an initial segment of `l`. -/
def charsStartWith : List Char → List Char → Bool
  | _, [] => true
  | [], _ :: _ => false
  | c :: cs, p :: ps => c == p && charsStartWith cs ps

/-- Decides whether the character list `p` occurs contiguously inside `l`. -/
def charsContain : List Char → List Char → Bool
  | [], p => p.isEmpty
  | c :: cs, p => charsStartWith (c :: cs) p || charsContain cs p

/-- Python substring test `pat in s`, as used by
`_generate_followup_suggestions`. -/
def strContains (s pat : String) : Bool :=
  charsContain s.data pat.data

/-- Python `s.lower()`: lowercase every character.  Written over the
character list so that it is a structural computation. -/
def pyLower (s : String) : String :=
  String.mk (s.data.map Char.toLower)

/-- `ChatService._generate_followup_suggestions`
(`backend/app/services/chat_service.py`, lines 312 to 338): scan the
lowercased assistant response for fixed trigger substrings, collect one
canned question per trigger in order; fall back to a fixed default list of
three questions when no trigger fired; return at most three. -/
def _generate_followup_suggestions (user_message assistant_response : String) :
    List String :=
  let lower := pyLower assistant_response
  let s1 : List String :=
    if strContains lower "methodology" then
      ["Can you explain the methodology in more detail?"] else []
  let s2 : List String :=
    if strContains lower "limitation" then
      ["What are the potential ways to address these limitations?"] else []
  let s3 : List String :=
    if strContains lower "result" || strContains lower "finding" then
      ["How do these findings compare to similar research?"] else []
  let suggestions := s1 ++ s2 ++ s3
  let suggestions :=
    if suggestions.isEmpty then
      ["Can you summarize the key takeaways?",
       "What are the practical applications of this research?",
       "Are there any related papers I should look at?"]
    else suggestions
  let _ := user_message
  suggestions.take 3

/-- The assistant content synthesized by `chat` when the language model call
raises (`backend/app/services/chat_service.py`, line 209). -/
def apologyMessage (e : String) : String :=
  "I apologize, but I encountered an error processing your request: " ++ e

/-- Python `a or b` on an optional list: `b` when `a` is `None` or the empty
list (both falsy), otherwise the list itself. -/
def pyOr (a : Option (List String)) (b : List String) : List String :=
  match a with
  | none => b
  | some l => if l.isEmpty then b else l

/-- The user `ChatMessage` built by `chat` and `chat_stream`
(`backend/app/services/chat_service.py`, lines 179 to 183 and 255 to 259):
role user, the raw message text, `paper_ids=paper_context or []`. -/
def userChatMessage (message : String) (paper_context : Option (List String)) : ChatMessage :=
  { role := .user
    content := message
    paper_ids := pyOr paper_context []
    citations := [] }

/-- Chat response record, from `ChatResponse` in
`backend/app/models/chat.py`. -/
structure ChatResponse where
  message : ChatMessage
  session_id : String
  sources : List SourceRecord
  suggested_followups : List String
deriving DecidableEq

/-- Streaming chunk record, from `StreamingChatChunk` in
`backend/app/models/chat.py`: `session_id` and `sources` default to `None`
and are set only on the final chunk. -/
structure StreamingChatChunk where
  chunk : String
  done : Bool
  session_id : Option String
  sources : Option (List SourceRecord)
deriving DecidableEq

/-- `ChatService.chat` (`backend/app/services/chat_service.py`, lines 149 to
231).  `fresh_id` is the uuid the repository would mint if a new session row
is created.  `retrieve` is the external vector search
(`get_context_for_rag`): it receives the query and the paper id scope
(`paper_context or session.paper_context`) and either returns the chunk list
or raises.  `llm` is the external batch `acompletion` call on the built
message list; it either returns the full response text or raises.  The
result pairs the final database state with either the returned
`ChatResponse` or the exception `chat` itself raises (which happens exactly
when the retrieval raises, since no handler is installed for it). -/
def chat (store : Store) (fresh_id session_id message : String)
    (paper_context : Option (List String)) (include_sources : Bool)
    (retrieve : String → List String → Except String (List Chunk))
    (llm : List LlmMessage → Except String String) :
    Store × Except String ChatResponse :=
  let gotten := get_by_id store session_id
  let store1 := match gotten with
    | some _ => store
    | none => create_session store fresh_id (pyOr paper_context [])
  let session : Session := match gotten with
    | some s => s
    | none => { paper_context := pyOr paper_context [], messages := [] }
  let store2 := (add_message store1 session_id (userChatMessage message paper_context)).1
  match retrieve message (pyOr paper_context session.paper_context) with
  | .error e => (store2, .error e)
  | .ok chunks =>
      let cs := _get_rag_context chunks
      let msgs := _build_messages session message cs.1
      let gen : String × List SourceRecord :=
        match llm msgs with
        | .ok text => (text, cs.2)
        | .error e => (apologyMessage e, [])
      let assistantMsg : ChatMessage :=
        { role := .assistant
          content := gen.1
          paper_ids := gen.2.map (fun s => s.paper_id)
          citations := gen.2.map (fun s => s.excerpt) }
      let store3 := (add_message store2 session_id assistantMsg).1
      (store3,
       .ok { message := assistantMsg
             session_id := session_id
             sources := if include_sources then gen.2 else []
             suggested_followups := _generate_followup_suggestions message gen.1 })

/-- `ChatService.chat_stream` (`backend/app/services/chat_service.py`, lines
233 to 310).  The streaming `acompletion` call is represented by
`llm_stream`, which returns the delta contents actually delivered before the
stream ended together with `none` (normal completion) or `some e` (the
stream raised `e` after those deltas).  Falsy deltas (empty strings, the
model for `None` contents) are skipped by the `if chunk.choices[0].delta.content`
guard; the others are accumulated into `full_response` and each yields a
partial event.  On a stream exception one extra partial event carrying the
error text is emitted, the buffer is replaced by the error text, and the
source list is cleared.  The accumulated buffer is then persisted as the
assistant message and the single final event (`done=True`, with session id
and, if requested, sources) is emitted.  A retrieval exception propagates
out of the generator (no events). -/
def chat_stream (store : Store) (fresh_id session_id message : String)
    (paper_context : Option (List String)) (include_sources : Bool)
    (retrieve : String → List String → Except String (List Chunk))
    (llm_stream : List LlmMessage → List String × Option String) :
    Store × Except String (List StreamingChatChunk) :=
  let gotten := get_by_id store session_id
  let store1 := match gotten with
    | some _ => store
    | none => create_session store fresh_id (pyOr paper_context [])
  let session : Session := match gotten with
    | some s => s
    | none => { paper_context := pyOr paper_context [], messages := [] }
  let store2 := (add_message store1 session_id (userChatMessage message paper_context)).1
  match retrieve message (pyOr paper_context session.paper_context) with
  | .error e => (store2, .error e)
  | .ok chunks =>
      let cs := _get_rag_context chunks
      let msgs := _build_messages session message cs.1
      let stream := llm_stream msgs
      let received := stream.1.filter (fun d => !(d == ""))
      let partials : List StreamingChatChunk :=
        received.map (fun c => { chunk := c, done := false, session_id := none, sources := none })
      let outcome : List StreamingChatChunk × String × List SourceRecord :=
        match stream.2 with
        | none => (partials, String.join received, cs.2)
        | some e =>
            let errorMsg := "Error: " ++ e
            (partials ++ [{ chunk := errorMsg, done := false, session_id := none, sources := none }],
             errorMsg, [])
      let assistantMsg : ChatMessage :=
        { role := .assistant
          content := outcome.2.1
          paper_ids := outcome.2.2.map (fun s => s.paper_id)
          citations := [] }
      let store3 := (add_message store2 session_id assistantMsg).1
      let finalEvent : StreamingChatChunk :=
        { chunk := ""
          done := true
          session_id := some session_id
          sources := if include_sources then some outcome.2.2 else none }
      (store3, .ok (outcome.1 ++ [finalEvent]))

/-- The event list produced by a `chat_stream` run, empty when the generator
raised before yielding. -/
def eventsOf (r : Store × Except String (List StreamingChatChunk)) :
    List StreamingChatChunk :=
  match r.2 with
  | .ok es => es
  | .error _ => []

/-- The subsequence of a chunk list consisting of the first chunk seen for
each paper id not yet in `seen`: the chunks for which the loop of
`_get_rag_context` emits a context block and a source dict. -/
def filterFirst : List Chunk → List String → List Chunk
  | [], _ => []
  | c :: rest, seen =>
      if c.paper_id ∈ seen then filterFirst rest seen
      else c :: filterFirst rest (c.paper_id :: seen)

/-- The assistant message that `chat_stream` persists, as a function of the
retrieved chunks, the delivered stream deltas and the stream outcome: on
normal completion the accumulated buffer of non-empty deltas with the
deduplicated source paper ids; on a stream exception the error text with no
paper ids (line 293 of `chat_service.py` overwrites the buffer and line 294
clears the sources). -/
def streamAssistantMessage (chunks : List Chunk) (ds : List String)
    (err : Option String) : ChatMessage :=
  match err with
  | none =>
      { role := .assistant
        content := String.join (ds.filter (fun d => !(d == "")))
        paper_ids := ((_get_rag_context chunks).2).map (fun s => s.paper_id)
        citations := [] }
  | some e =>
      { role := .assistant
        content := "Error: " ++ e
        paper_ids := []
        citations := [] }

section Lemmas

lemma mkSource_paper_id (c : Chunk) : (mkSource c).paper_id = c.paper_id := rfl

lemma assemble_snd (chunks : List Chunk) (seen : List String) :
    (assemble chunks seen).2 = (filterFirst chunks seen).map mkSource := by
  induction chunks generalizing seen with
  | nil => rfl
  | cons c rest ih =>
      by_cases h : c.paper_id ∈ seen
      · simp [assemble, filterFirst, h, ih]
      · simp [assemble, filterFirst, h, ih]

lemma filterFirst_sound (chunks : List Chunk) (seen : List String) :
    ∀ c ∈ filterFirst chunks seen,
      c.paper_id ∉ seen ∧
      List.find? (fun c2 => c2.paper_id == c.paper_id) chunks = some c := by
  induction chunks generalizing seen with
  | nil => intro c hc; simp [filterFirst] at hc
  | cons d rest ih =>
      intro c hc
      by_cases hd : d.paper_id ∈ seen
      · simp only [filterFirst, if_pos hd] at hc
        obtain ⟨hnot, hfind⟩ := ih seen c hc
        refine ⟨hnot, ?_⟩
        have hne : (d.paper_id == c.paper_id) = false := by
          simp only [beq_eq_false_iff_ne, ne_eq]
          intro heq
          exact hnot (heq ▸ hd)
        simp [List.find?_cons, hne, hfind]
      · simp only [filterFirst, if_neg hd, List.mem_cons] at hc
        rcases hc with rfl | hc
        · exact ⟨hd, by simp [List.find?_cons]⟩
        · obtain ⟨hnot, hfind⟩ := ih (d.paper_id :: seen) c hc
          have hnotseen : c.paper_id ∉ seen := fun h => hnot (List.mem_cons_of_mem _ h)
          have hned : c.paper_id ≠ d.paper_id := by
            intro heq
            exact hnot (by simp [heq])
          have hne : (d.paper_id == c.paper_id) = false := by
            simp only [beq_eq_false_iff_ne, ne_eq]
            exact fun h => hned h.symm
          exact ⟨hnotseen, by simp [List.find?_cons, hne, hfind]⟩

lemma filterFirst_nodup (chunks : List Chunk) (seen : List String) :
    ((filterFirst chunks seen).map (fun c => c.paper_id)).Nodup := by
  induction chunks generalizing seen with
  | nil => simp [filterFirst]
  | cons d rest ih =>
      by_cases hd : d.paper_id ∈ seen
      · simpa [filterFirst, hd] using ih seen
      · simp only [filterFirst, if_neg hd, List.map_cons, List.nodup_cons]
        refine ⟨?_, ih (d.paper_id :: seen)⟩
        intro hmem
        obtain ⟨c, hc, hcid⟩ := List.mem_map.mp hmem
        have := (filterFirst_sound rest (d.paper_id :: seen) c hc).1
        exact this (by simp [hcid])

lemma filterFirst_length (chunks : List Chunk) (seen : List String) :
    (filterFirst chunks seen).length =
      ((chunks.map (fun c => c.paper_id)).toFinset \ seen.toFinset).card := by
  induction chunks generalizing seen with
  | nil => simp [filterFirst]
  | cons d rest ih =>
      by_cases hd : d.paper_id ∈ seen
      · have hd2 : d.paper_id ∈ seen.toFinset := List.mem_toFinset.mpr hd
        simp only [filterFirst, if_pos hd, List.map_cons, List.toFinset_cons]
        rw [Finset.insert_sdiff_of_mem _ hd2]
        exact ih seen
      · have hd2 : d.paper_id ∉ seen.toFinset := fun h => hd (List.mem_toFinset.mp h)
        simp only [filterFirst, if_neg hd, List.length_cons, List.map_cons,
          List.toFinset_cons]
        rw [Finset.insert_sdiff_of_not_mem _ hd2]
        have hset :
            insert d.paper_id ((rest.map (fun c => c.paper_id)).toFinset \ seen.toFinset) =
              insert d.paper_id
                ((rest.map (fun c => c.paper_id)).toFinset \ (d.paper_id :: seen).toFinset) := by
          ext x
          by_cases hx : x = d.paper_id <;> simp [hx]
        rw [hset, Finset.card_insert_of_not_mem (by simp), ih (d.paper_id :: seen)]

lemma rag_sources_eq (chunks : List Chunk) :
    (_get_rag_context chunks).2 = (filterFirst chunks []).map mkSource := by
  cases chunks with
  | nil => rfl
  | cons c rest =>
      simp only [_get_rag_context, List.isEmpty_cons, Bool.false_eq_true, if_false]
      exact assemble_snd (c :: rest) []

lemma get_by_id_cons (k : String) (v : Session) (rest : Store) (sid : String) :
    get_by_id ((k, v) :: rest) sid =
      if k == sid then some v else get_by_id rest sid := by
  by_cases hk : k == sid
  · simp [get_by_id, List.find?_cons, hk]
  · simp only [Bool.not_eq_true] at hk
    simp [get_by_id, List.find?_cons, hk]

lemma add_message_not_found (store : Store) (sid : String) (m : ChatMessage)
    (h : get_by_id store sid = none) :
    add_message store sid m = (store, none) := by
  simp [add_message, h]

lemma get_by_id_map_update (store : Store) (sid : String) (s2 : Session)
    (h : (List.find? (fun p => p.1 == sid) store).isSome) :
    get_by_id (store.map (fun p => if p.1 == sid then (sid, s2) else p)) sid = some s2 := by
  induction store with
  | nil => simp [List.find?] at h
  | cons p rest ih =>
      obtain ⟨k, v⟩ := p
      by_cases hk : (k == sid) = true
      · simp only [List.map_cons, hk, if_true]
        rw [get_by_id_cons]
        simp
      · have hk2 : (k == sid) = false := by simpa using hk
        simp only [List.map_cons, hk2, Bool.false_eq_true, if_false]
        rw [get_by_id_cons, if_neg (by simp [hk2])]
        apply ih
        rw [List.find?_cons, hk2] at h
        exact h

lemma get_by_id_add_some (store : Store) (sid : String) (m : ChatMessage) (s : Session)
    (h : get_by_id store sid = some s) :
    get_by_id (add_message store sid m).1 sid =
      some { s with messages := s.messages ++ [m] } := by
  have hf : (List.find? (fun p => p.1 == sid) store).isSome := by
    unfold get_by_id at h
    cases hfind : List.find? (fun p => p.1 == sid) store
    · rw [hfind] at h; cases h
    · simp
  simp only [add_message, h]
  exact get_by_id_map_update store sid _ hf

lemma get_by_id_append_none (l1 l2 : Store) (sid : String)
    (h : get_by_id l1 sid = none) :
    get_by_id (l1 ++ l2) sid = get_by_id l2 sid := by
  induction l1 with
  | nil => simp
  | cons p rest ih =>
      obtain ⟨k, v⟩ := p
      rw [get_by_id_cons] at h
      by_cases hk : k == sid
      · rw [if_pos hk] at h; cases h
      · rw [if_neg hk] at h
        simp only [Bool.not_eq_true] at hk
        simpa [get_by_id_cons, hk] using ih h

lemma get_by_id_create_none (store : Store) (fresh sid : String) (pc : List String)
    (h : get_by_id store sid = none) (hne : fresh ≠ sid) :
    get_by_id (create_session store fresh pc) sid = none := by
  rw [create_session, get_by_id_append_none _ _ _ h, get_by_id_cons]
  simp [get_by_id, hne]

end Lemmas

section StreamLemmas

lemma stream_events_props (mids : List StreamingChatChunk) (finalEv : StreamingChatChunk)
    (hmids : ∀ ev ∈ mids, ev.done = false)
    (hdone : finalEv.done = true) :
    ((mids ++ [finalEv]).countP (fun ev => ev.done) = 1) ∧
    (mids ++ [finalEv]).getLast? = some finalEv ∧
    (mids ++ [finalEv]).dropLast = mids := by
  refine ⟨?_, List.getLast?_concat _, List.dropLast_concat⟩
  rw [List.countP_append]
  have h0 : mids.countP (fun ev => ev.done) = 0 := by
    rw [List.countP_eq_zero]
    intro ev hev
    simp [hmids ev hev]
  simp [h0, List.countP_cons, hdone]

lemma chat_stream_events_shape (store : Store) (fresh sid message : String)
    (pc : Option (List String)) (inc : Bool)
    (retrieve : String → List String → Except String (List Chunk))
    (llm_stream : List LlmMessage → List String × Option String)
    (chunks : List Chunk)
    (hret : ∀ q pids, retrieve q pids = .ok chunks) :
    ∃ (mids : List StreamingChatChunk) (S : List SourceRecord),
      (chat_stream store fresh sid message pc inc retrieve llm_stream).2 =
        .ok (mids ++
          [{ chunk := "", done := true, session_id := some sid,
             sources := if inc then some S else none }]) ∧
      ∀ ev ∈ mids, ev.done = false ∧ ev.session_id = none ∧ ev.sources = none := by
  simp only [chat_stream, hret]
  cases hg : get_by_id store sid with
  | none =>
      cases herr : (llm_stream (_build_messages
          { paper_context := pyOr pc [], messages := [] } message
          (_get_rag_context chunks).1)).2 with
      | none =>
          refine ⟨_, _, rfl, ?_⟩
          intro ev hev
          obtain ⟨d, _, rfl⟩ := List.mem_map.mp hev
          exact ⟨rfl, rfl, rfl⟩
      | some e =>
          refine ⟨_, _, rfl, ?_⟩
          intro ev hev
          rcases List.mem_append.mp hev with hev | hev
          · obtain ⟨d, _, rfl⟩ := List.mem_map.mp hev
            exact ⟨rfl, rfl, rfl⟩
          · rcases List.mem_singleton.mp hev with rfl
            exact ⟨rfl, rfl, rfl⟩
  | some s =>
      cases herr : (llm_stream (_build_messages s message (_get_rag_context chunks).1)).2 with
      | none =>
          refine ⟨_, _, rfl, ?_⟩
          intro ev hev
          obtain ⟨d, _, rfl⟩ := List.mem_map.mp hev
          exact ⟨rfl, rfl, rfl⟩
      | some e =>
          refine ⟨_, _, rfl, ?_⟩
          intro ev hev
          rcases List.mem_append.mp hev with hev | hev
          · obtain ⟨d, _, rfl⟩ := List.mem_map.mp hev
            exact ⟨rfl, rfl, rfl⟩
          · rcases List.mem_singleton.mp hev with rfl
            exact ⟨rfl, rfl, rfl⟩

end StreamLemmas

/-- C1: `chat()` called with the unknown session id "ghost-123" raises no
error and transparently creates a new session (with the freshly minted id
"fresh-1" and an empty message list), but — contrary to the claim — the
returned `ChatResponse` carries the supplied stale id "ghost-123", not the
id of the newly created session, and the new session stays empty: both
`add_message` calls look up the stale id and silently write nothing.  This
theorem evaluates the code at the failing input of the code_bug record. -/
theorem C1_stale_session_id :
    ((chat [] "fresh-1" "ghost-123" "hi" none true
        (fun _ _ => .ok []) (fun _ => .ok "Hello")).2).map
      (fun r => r.session_id) = Except.ok "ghost-123" ∧
    (chat [] "fresh-1" "ghost-123" "hi" none true
        (fun _ _ => .ok []) (fun _ => .ok "Hello")).1 =
      [("fresh-1", { paper_context := [], messages := [] })] ∧
    ("fresh-1" : String) ≠ "ghost-123" :=
  ⟨rfl, by decide, by decide⟩

/-- C2 (amended): when the vector search raises, no handler intervenes in
`_get_rag_context` or in `chat`: the exception propagates and the chat turn
aborts with the retrieval error, for every database state and every llm. -/
theorem C2_retrieval_error_propagates (store : Store) (fresh sid message : String)
    (pc : Option (List String)) (inc : Bool)
    (llm : List LlmMessage → Except String String) (e : String)
    (retrieve : String → List String → Except String (List Chunk))
    (hret : ∀ q pids, retrieve q pids = .error e) :
    (chat store fresh sid message pc inc retrieve llm).2 = .error e := by
  simp [chat, hret]

/-- C2 witness: the amended statement at a concrete session table, query and
failing retrieval backend. -/
theorem C2_retrieval_error_propagates_witness :
    (chat [("s1", { paper_context := [], messages := [] })] "f" "s1" "q" none true
        (fun _ _ => Except.error "index unreachable") (fun _ => .ok "answer")).2 =
      Except.error "index unreachable" :=
  C2_retrieval_error_propagates _ "f" "s1" "q" none true _ "index unreachable" _
    (fun _ _ => rfl)

/-- C2 counterexample: at a concrete input whose retrieval backend raises,
`chat` does not return a response at all — it aborts with the retrieval
error — refuting the claim that the turn proceeds with an empty chunk set
and still returns a (sourceless) response. -/
theorem C2_counterexample :
    (chat [("s1", { paper_context := [], messages := [] })] "f2" "s1" "q" none true
        (fun _ _ => Except.error "qdrant down") (fun _ => .ok "answer")).2 =
      Except.error "qdrant down" := rfl

/-- C3: for every ordered chunk sequence, context assembly never emits two
source records with the same paper id, and every emitted source record is
derived (by `mkSource`) from the first chunk of the input carrying its
paper id — later chunks of an already seen paper id contribute nothing. -/
theorem C3_dedup_first_chunk (chunks : List Chunk) (s : SourceRecord)
    (hs : s ∈ (_get_rag_context chunks).2) :
    (((_get_rag_context chunks).2).map (fun s2 => s2.paper_id)).Nodup ∧
    (List.find? (fun c => c.paper_id == s.paper_id) chunks).map mkSource = some s := by
  rw [rag_sources_eq] at hs
  constructor
  · rw [rag_sources_eq, List.map_map]
    have heq : ((fun s2 : SourceRecord => s2.paper_id) ∘ mkSource) =
        (fun c : Chunk => c.paper_id) := rfl
    rw [heq]
    exact filterFirst_nodup chunks []
  · obtain ⟨c, hc, rfl⟩ := List.mem_map.mp hs
    have hfind := (filterFirst_sound chunks [] c hc).2
    rw [mkSource_paper_id, hfind]
    rfl

/-- C3 witness: the dedup and first-chunk property at a concrete one-chunk
input. -/
theorem C3_dedup_first_chunk_witness :
    (mkSource { paper_id := "p1", text := "t1", title := "T1", score := 1 } ∈
      (_get_rag_context [{ paper_id := "p1", text := "t1", title := "T1", score := 1 }]).2) ∧
    ((((_get_rag_context
          [{ paper_id := "p1", text := "t1", title := "T1", score := 1 }]).2).map
        (fun s2 => s2.paper_id)).Nodup ∧
      (List.find?
          (fun c => c.paper_id ==
            (mkSource { paper_id := "p1", text := "t1", title := "T1", score := 1 }).paper_id)
          [{ paper_id := "p1", text := "t1", title := "T1", score := 1 }]).map mkSource =
        some (mkSource { paper_id := "p1", text := "t1", title := "T1", score := 1 })) := by
  have hm : mkSource { paper_id := "p1", text := "t1", title := "T1", score := 1 } ∈
      (_get_rag_context [{ paper_id := "p1", text := "t1", title := "T1", score := 1 }]).2 := by
    decide
  exact ⟨hm, C3_dedup_first_chunk _ _ hm⟩

/-- C7 (amended): context assembly emits exactly one source record per
distinct paper id of the input — there is no max_sources cutoff in the
loop — so for every bound k that dominates the input length (as the
retrieval top_k does for the chunk lists the vector search returns), the
number of emitted source records is at most min k (number of distinct paper
ids). -/
theorem C7_source_count (chunks : List Chunk) (k : Nat) (hk : chunks.length ≤ k) :
    ((_get_rag_context chunks).2).length =
      ((chunks.map (fun c => c.paper_id)).dedup).length ∧
    ((_get_rag_context chunks).2).length ≤
      min k ((chunks.map (fun c => c.paper_id)).dedup).length := by
  have hlen : ((_get_rag_context chunks).2).length =
      ((chunks.map (fun c => c.paper_id)).dedup).length := by
    rw [rag_sources_eq, List.length_map, filterFirst_length]
    simp [List.card_toFinset]
  refine ⟨hlen, ?_⟩
  rw [hlen]
  refine le_min ?_ le_rfl
  calc ((chunks.map (fun c => c.paper_id)).dedup).length
      ≤ (chunks.map (fun c => c.paper_id)).length := (List.dedup_sublist _).length_le
    _ = chunks.length := List.length_map _ _
    _ ≤ k := hk

/-- C7 witness: the amended bound at a concrete one-chunk input with k = 1. -/
theorem C7_source_count_witness :
    ([({ paper_id := "p1", text := "t", title := "T", score := 0 } : Chunk)].length ≤ 1) ∧
    (((_get_rag_context [{ paper_id := "p1", text := "t", title := "T", score := 0 }]).2).length =
        (([({ paper_id := "p1", text := "t", title := "T", score := 0 } : Chunk)].map
            (fun c => c.paper_id)).dedup).length ∧
      ((_get_rag_context [{ paper_id := "p1", text := "t", title := "T", score := 0 }]).2).length ≤
        min 1 (([({ paper_id := "p1", text := "t", title := "T", score := 0 } : Chunk)].map
            (fun c => c.paper_id)).dedup).length) :=
  ⟨by decide, C7_source_count _ 1 (by decide)⟩

/-- C7 counterexample: six chunks with six distinct paper ids make the
assembly emit six source records, exceeding min(max_sources, distinct) for
the fixed max_sources = 5 the specification names — there is no stop after
max_sources distinct papers. -/
theorem C7_counterexample :
    ((_get_rag_context
        [{ paper_id := "p1", text := "t", title := "T", score := 0 },
         { paper_id := "p2", text := "t", title := "T", score := 0 },
         { paper_id := "p3", text := "t", title := "T", score := 0 },
         { paper_id := "p4", text := "t", title := "T", score := 0 },
         { paper_id := "p5", text := "t", title := "T", score := 0 },
         { paper_id := "p6", text := "t", title := "T", score := 0 }]).2).length = 6 ∧
    (([({ paper_id := "p1", text := "t", title := "T", score := 0 } : Chunk),
       { paper_id := "p2", text := "t", title := "T", score := 0 },
       { paper_id := "p3", text := "t", title := "T", score := 0 },
       { paper_id := "p4", text := "t", title := "T", score := 0 },
       { paper_id := "p5", text := "t", title := "T", score := 0 },
       { paper_id := "p6", text := "t", title := "T", score := 0 }].map
         (fun c => c.paper_id)).dedup).length = 6 ∧
    ¬ (6 ≤ min 5 6) := by
  refine ⟨by decide, by decide, by decide⟩

/-- C8 (amended): every emitted source record has as excerpt the text of
the first chunk of its paper id truncated to the first 200 characters with
the ellipsis marker appended unconditionally — also when the text was not
truncated. -/
theorem C8_excerpt_truncation (chunks : List Chunk) (s : SourceRecord)
    (hs : s ∈ (_get_rag_context chunks).2) :
    (List.find? (fun c => c.paper_id == s.paper_id) chunks).map
      (fun c => pySlice c.text 200 ++ "...") = some s.excerpt := by
  rw [rag_sources_eq] at hs
  obtain ⟨c, hc, rfl⟩ := List.mem_map.mp hs
  have hfind := (filterFirst_sound chunks [] c hc).2
  rw [mkSource_paper_id, hfind]
  rfl

/-- C8 witness: the amended excerpt equation at a concrete one-chunk
input. -/
theorem C8_excerpt_truncation_witness :
    (mkSource { paper_id := "p9", text := "body", title := "T9", score := 2 } ∈
      (_get_rag_context [{ paper_id := "p9", text := "body", title := "T9", score := 2 }]).2) ∧
    (List.find?
        (fun c => c.paper_id ==
          (mkSource { paper_id := "p9", text := "body", title := "T9", score := 2 }).paper_id)
        ([{ paper_id := "p9", text := "body", title := "T9", score := 2 }] : List Chunk)).map
      (fun c => pySlice c.text 200 ++ "...") =
      some ((mkSource { paper_id := "p9", text := "body", title := "T9", score := 2 }).excerpt) := by
  have hm : mkSource { paper_id := "p9", text := "body", title := "T9", score := 2 } ∈
      (_get_rag_context [{ paper_id := "p9", text := "body", title := "T9", score := 2 }]).2 := by
    decide
  exact ⟨hm, C8_excerpt_truncation _ _ hm⟩

/-- C8 counterexample: a 5-character chunk text is far below the 200
character budget, yet the emitted excerpt is "short..." — the ellipsis
marker is appended although nothing was truncated, refuting the
"if and only if truncated" claim. -/
theorem C8_counterexample :
    ((_get_rag_context [{ paper_id := "p1", text := "short", title := "T", score := 0 }]).2).map
      (fun s => s.excerpt) = ["short..."] ∧
    ("short" : String).length ≤ 200 ∧
    ("short..." : String) ≠ "short" := by
  refine ⟨by decide, by decide, by decide⟩

/-- C4: in batch mode, when the language model call raises, `chat` still
returns a `ChatResponse` (it does not raise): the sources list is empty,
the assistant content is the apology message carrying the error
description, and the user message was already appended to the session by
the `add_message` call that precedes the generation step — the final
history is the old one extended by the user message and then the apology
assistant message. -/
theorem C4_batch_llm_error (store : Store) (fresh sid message : String)
    (pc : Option (List String)) (inc : Bool)
    (retrieve : String → List String → Except String (List Chunk))
    (llm : List LlmMessage → Except String String)
    (chunks : List Chunk) (e : String) (s : Session)
    (hret : ∀ q pids, retrieve q pids = .ok chunks)
    (hllm : ∀ ms, llm ms = .error e)
    (hsess : get_by_id store sid = some s) :
    (chat store fresh sid message pc inc retrieve llm).2 =
      .ok { message := { role := .assistant, content := apologyMessage e,
                         paper_ids := [], citations := [] }
            session_id := sid
            sources := []
            suggested_followups := _generate_followup_suggestions message (apologyMessage e) } ∧
    get_by_id (add_message store sid (userChatMessage message pc)).1 sid =
      some { s with messages := s.messages ++ [userChatMessage message pc] } ∧
    get_by_id (chat store fresh sid message pc inc retrieve llm).1 sid =
      some { s with messages := s.messages ++
        [userChatMessage message pc,
         { role := .assistant, content := apologyMessage e,
           paper_ids := [], citations := [] }] } := by
  have h1 := get_by_id_add_some store sid (userChatMessage message pc) s hsess
  have h2 := get_by_id_add_some _ sid
    ({ role := .assistant, content := apologyMessage e, paper_ids := [], citations := [] })
    _ h1
  refine ⟨?_, h1, ?_⟩
  · simp [chat, hsess, hret, hllm]
  · simp only [chat, hsess, hret, hllm]
    simpa [List.append_assoc] using h2

/-- C4 witness: the batch-error contract at a concrete session table, a
retrieval returning no chunks, and a model call failing with "boom". -/
theorem C4_batch_llm_error_witness :
    (get_by_id [("s1", { paper_context := [], messages := [] })] "s1" =
      some { paper_context := [], messages := [] }) ∧
    ((chat [("s1", { paper_context := [], messages := [] })] "f" "s1" "hi" none true
        (fun _ _ => .ok []) (fun _ => Except.error "boom")).2 =
      .ok { message := { role := .assistant, content := apologyMessage "boom",
                         paper_ids := [], citations := [] }
            session_id := "s1"
            sources := []
            suggested_followups := _generate_followup_suggestions "hi" (apologyMessage "boom") } ∧
      get_by_id (add_message [("s1", { paper_context := [], messages := [] })] "s1"
          (userChatMessage "hi" none)).1 "s1" =
        some { paper_context := [], messages := [] ++ [userChatMessage "hi" none] } ∧
      get_by_id (chat [("s1", { paper_context := [], messages := [] })] "f" "s1" "hi" none true
          (fun _ _ => .ok []) (fun _ => Except.error "boom")).1 "s1" =
        some { paper_context := [],
               messages := [] ++
                 [userChatMessage "hi" none,
                  { role := .assistant, content := apologyMessage "boom",
                    paper_ids := [], citations := [] }] }) :=
  ⟨rfl, C4_batch_llm_error [("s1", { paper_context := [], messages := [] })] "f" "s1" "hi"
    none true (fun _ _ => .ok []) (fun _ => Except.error "boom") [] "boom"
    { paper_context := [], messages := [] } (fun _ _ => rfl) (fun _ => rfl) rfl⟩

/-- C5: for every invocation of `chat_stream` that reaches the model stream
(the retrieval returned chunks), whatever deltas the stream delivers and
whether or not it raises afterwards, the produced event sequence contains
exactly one event with done=true, that event is the last one, it carries
the session id, every earlier event carries neither session id nor sources,
and the final event carries a sources list exactly when the caller
requested source inclusion. -/
theorem C5_stream_single_done (store : Store) (fresh sid message : String)
    (pc : Option (List String)) (inc : Bool)
    (retrieve : String → List String → Except String (List Chunk))
    (llm_stream : List LlmMessage → List String × Option String)
    (chunks : List Chunk)
    (hret : ∀ q pids, retrieve q pids = .ok chunks) :
    ((eventsOf (chat_stream store fresh sid message pc inc retrieve llm_stream)).countP
        (fun ev => ev.done) = 1) ∧
    ((eventsOf (chat_stream store fresh sid message pc inc retrieve llm_stream)).getLast?).map
        (fun ev => ev.done) = some true ∧
    ((eventsOf (chat_stream store fresh sid message pc inc retrieve llm_stream)).getLast?).map
        (fun ev => ev.session_id) = some (some sid) ∧
    ((eventsOf (chat_stream store fresh sid message pc inc retrieve llm_stream)).getLast?).map
        (fun ev => ev.sources.isSome) = some inc ∧
    ∀ ev ∈ (eventsOf (chat_stream store fresh sid message pc inc retrieve llm_stream)).dropLast,
      ev.done = false ∧ ev.session_id = none ∧ ev.sources = none := by
  obtain ⟨mids, S, hok, hmids⟩ :=
    chat_stream_events_shape store fresh sid message pc inc retrieve llm_stream chunks hret
  have hev : eventsOf (chat_stream store fresh sid message pc inc retrieve llm_stream) =
      mids ++ [{ chunk := "", done := true, session_id := some sid,
                 sources := if inc then some S else none }] := by
    simp [eventsOf, hok]
  obtain ⟨hcount, hlast, hdrop⟩ :=
    stream_events_props mids
      { chunk := "", done := true, session_id := some sid,
        sources := if inc then some S else none }
      (fun ev h => (hmids ev h).1) rfl
  rw [hev]
  refine ⟨hcount, ?_, ?_, ?_, ?_⟩
  · rw [hlast]
    rfl
  · rw [hlast]
    rfl
  · rw [hlast]
    cases inc <;> rfl
  · rw [hdrop]
    exact hmids

/-- C5 witness: the single-terminal-event contract at the specification
scenario — three increments delivered, then the stream raises. -/
theorem C5_stream_single_done_witness :
    ((eventsOf (chat_stream [("s1", { paper_context := [], messages := [] })] "f" "s1" "hi"
        none true (fun _ _ => Except.ok []) (fun _ => (["a", "b", "c"], some "boom")))).countP
        (fun ev => ev.done) = 1) ∧
    ((eventsOf (chat_stream [("s1", { paper_context := [], messages := [] })] "f" "s1" "hi"
        none true (fun _ _ => Except.ok []) (fun _ => (["a", "b", "c"], some "boom")))).getLast?).map
        (fun ev => ev.done) = some true ∧
    ((eventsOf (chat_stream [("s1", { paper_context := [], messages := [] })] "f" "s1" "hi"
        none true (fun _ _ => Except.ok []) (fun _ => (["a", "b", "c"], some "boom")))).getLast?).map
        (fun ev => ev.session_id) = some (some "s1") ∧
    ((eventsOf (chat_stream [("s1", { paper_context := [], messages := [] })] "f" "s1" "hi"
        none true (fun _ _ => Except.ok []) (fun _ => (["a", "b", "c"], some "boom")))).getLast?).map
        (fun ev => ev.sources.isSome) = some true := by
  have h := C5_stream_single_done [("s1", { paper_context := [], messages := [] })] "f" "s1"
    "hi" none true (fun _ _ => Except.ok []) (fun _ => (["a", "b", "c"], some "boom")) []
    (fun _ _ => rfl)
  exact ⟨h.1, h.2.1, h.2.2.1, h.2.2.2.1⟩

/-- C6 (amended): the non-empty deltas delivered by the model stream
accumulate into the response buffer; on normal completion the assistant
message persisted to the session carries that accumulated buffer, but on a
handled mid-stream exception the buffer is replaced by the error text and
the persisted message carries the error text (the increments received
before the error are discarded from the persisted content); the error text
is emitted as a partial-chunk event with done=false and the generator does
not re-raise.  Persistence happens in the same run, immediately after the
stream ends. -/
theorem C6_stream_buffer_persisted (store : Store) (fresh sid message : String)
    (pc : Option (List String)) (inc : Bool)
    (retrieve : String → List String → Except String (List Chunk))
    (llm_stream : List LlmMessage → List String × Option String)
    (chunks : List Chunk) (ds : List String) (err : Option String) (s : Session)
    (hret : ∀ q pids, retrieve q pids = .ok chunks)
    (hstream : ∀ ms, llm_stream ms = (ds, err))
    (hsess : get_by_id store sid = some s) :
    (chat_stream store fresh sid message pc inc retrieve llm_stream).2 =
      .ok (eventsOf (chat_stream store fresh sid message pc inc retrieve llm_stream)) ∧
    get_by_id (chat_stream store fresh sid message pc inc retrieve llm_stream).1 sid =
      some { s with messages := s.messages ++
        [userChatMessage message pc, streamAssistantMessage chunks ds err] } ∧
    ∀ e, err = some e →
      ({ chunk := "Error: " ++ e, done := false, session_id := none, sources := none } :
          StreamingChatChunk) ∈
        eventsOf (chat_stream store fresh sid message pc inc retrieve llm_stream) := by
  have h1 := get_by_id_add_some store sid (userChatMessage message pc) s hsess
  have h2 := get_by_id_add_some _ sid (streamAssistantMessage chunks ds err) _ h1
  cases err with
  | none =>
      refine ⟨?_, ?_, ?_⟩
      · simp [chat_stream, hsess, hret, hstream, eventsOf]
      · simp only [chat_stream, hsess, hret, hstream]
        simpa [streamAssistantMessage, List.append_assoc] using h2
      · intro e he
        cases he
  | some e0 =>
      refine ⟨?_, ?_, ?_⟩
      · simp [chat_stream, hsess, hret, hstream, eventsOf]
      · simp only [chat_stream, hsess, hret, hstream]
        simpa [streamAssistantMessage, List.append_assoc] using h2
      · intro e he
        injection he with he0
        subst he0
        simp [chat_stream, hsess, hret, hstream, eventsOf]

/-- C6 witness: the amended persistence contract at a concrete run in which
one delta "Hello" arrives and then the stream raises "boom": the persisted
assistant message is the error text, and the error partial event with
done=false is among the produced events. -/
theorem C6_stream_buffer_persisted_witness :
    (get_by_id [("s1", { paper_context := [], messages := [] })] "s1" =
      some { paper_context := [], messages := [] }) ∧
    get_by_id (chat_stream [("s1", { paper_context := [], messages := [] })] "f" "s1" "hi"
        none true (fun _ _ => Except.ok []) (fun _ => (["Hello"], some "boom"))).1 "s1" =
      some { paper_context := [],
             messages := [] ++
               [userChatMessage "hi" none,
                streamAssistantMessage [] ["Hello"] (some "boom")] } ∧
    ({ chunk := "Error: boom", done := false, session_id := none, sources := none } :
        StreamingChatChunk) ∈
      eventsOf (chat_stream [("s1", { paper_context := [], messages := [] })] "f" "s1" "hi"
        none true (fun _ _ => Except.ok []) (fun _ => (["Hello"], some "boom"))) := by
  have h := C6_stream_buffer_persisted [("s1", { paper_context := [], messages := [] })]
    "f" "s1" "hi" none true (fun _ _ => Except.ok []) (fun _ => (["Hello"], some "boom"))
    [] ["Hello"] (some "boom") { paper_context := [], messages := [] }
    (fun _ _ => rfl) (fun _ => rfl) rfl
  exact ⟨rfl, h.2.1, h.2.2 "boom" rfl⟩

/-- C6 counterexample: with the delta "Hello" delivered and then a stream
exception "boom", the assistant message persisted to the session carries
the error text "Error: boom", not the accumulated text "Hello" generated so
far — refuting the claim that the persisted message carries the text
generated before the failure. -/
theorem C6_counterexample :
    (get_by_id (chat_stream [("s1", { paper_context := [], messages := [] })] "f" "s1" "hi"
        none true (fun _ _ => Except.ok []) (fun _ => (["Hello"], some "boom"))).1 "s1").map
      (fun s => s.messages.map (fun m => m.content)) = some ["hi", "Error: boom"] ∧
    ("Error: boom" : String) ≠ "Hello" := by
  refine ⟨by decide, by decide⟩

/-- C10: `add_message` with a session id that identifies no stored session
returns None and leaves the whole table unchanged; consequently a `chat`
or `chat_stream` turn invoked with such a stale id changes the table only
by inserting the single freshly created empty session — neither the user
message nor the assistant message appended under the stale id lands in any
session. -/
theorem C10_unknown_session_noop (store : Store) (fresh sid message : String)
    (m : ChatMessage) (pc : Option (List String)) (inc : Bool)
    (retrieve : String → List String → Except String (List Chunk))
    (llm : List LlmMessage → Except String String)
    (llm_stream : List LlmMessage → List String × Option String)
    (hnone : get_by_id store sid = none) (hne : fresh ≠ sid) :
    add_message store sid m = (store, none) ∧
    (chat store fresh sid message pc inc retrieve llm).1 =
      store ++ [(fresh, { paper_context := pyOr pc [], messages := [] })] ∧
    (chat_stream store fresh sid message pc inc retrieve llm_stream).1 =
      store ++ [(fresh, { paper_context := pyOr pc [], messages := [] })] := by
  have hcreate : get_by_id (create_session store fresh (pyOr pc [])) sid = none :=
    get_by_id_create_none store fresh sid _ hnone hne
  have hnoop : ∀ m2 : ChatMessage,
      add_message (store ++ [(fresh, { paper_context := pyOr pc [], messages := [] })]) sid m2 =
        (store ++ [(fresh, { paper_context := pyOr pc [], messages := [] })], none) :=
    fun m2 => add_message_not_found _ _ _ (by simpa [create_session] using hcreate)
  refine ⟨add_message_not_found store sid m hnone, ?_, ?_⟩
  · cases hretr : retrieve message (pyOr pc (pyOr pc [])) with
    | error e => simp [chat, hnone, hnoop, hretr, create_session]
    | ok chunks => simp [chat, hnone, hnoop, hretr, create_session]
  · cases hretr : retrieve message (pyOr pc (pyOr pc [])) with
    | error e => simp [chat_stream, hnone, hnoop, hretr, create_session]
    | ok chunks => simp [chat_stream, hnone, hnoop, hretr, create_session]

/-- C10 witness: the stale-id contract at the concrete unknown id "ghost"
over an empty session table. -/
theorem C10_unknown_session_noop_witness :
    (get_by_id ([] : Store) "ghost" = none) ∧
    ("f1" : String) ≠ "ghost" ∧
    (add_message ([] : Store) "ghost" (userChatMessage "hi" none) = ([], none) ∧
      (chat [] "f1" "ghost" "hi" none true (fun _ _ => .ok []) (fun _ => .ok "x")).1 =
        [] ++ [("f1", { paper_context := pyOr none [], messages := [] })] ∧
      (chat_stream [] "f1" "ghost" "hi" none true (fun _ _ => .ok [])
          (fun _ => ([], none))).1 =
        [] ++ [("f1", { paper_context := pyOr none [], messages := [] })]) :=
  ⟨rfl, by decide,
    C10_unknown_session_noop [] "f1" "ghost" "hi" (userChatMessage "hi" none) none true
      _ _ _ rfl (by decide)⟩

/-- C9: empty retrieved-chunk input makes `_get_rag_context` return the
empty context string and the empty source list without error, and
`_build_messages` then renders the system message with the
"No specific papers in context." placeholder instead of an empty context
block. -/
theorem C9_empty_chunks (session : Session) (msg : String) :
    _get_rag_context [] = ("", []) ∧
    (_build_messages session msg (_get_rag_context []).1).head? =
      some { role := "system",
             content := systemPromptFmt "No specific papers in context." } :=
  ⟨rfl, rfl⟩

end LavenderSentinel
